import Mathlib

/-!
Shallow embedding of the task-tracking web application (src/app.py):
the Task Store (load / save / create / update over one JSON file) and the
login and route-gating behavior that the specification covers.

Tasks are JSON objects; we model them as Python dicts: insertion-ordered
association lists of string keys and JSON scalar values.  The persisted
task file is modelled as an optional list of such objects (none = the
file does not exist).  Wall-clock time enters the code only through
datetime.now().strftime, which we model as string parameters supplied
at the call boundary.
-/

namespace TaskApp

/-- JSON scalar values as they appear in task fields and patches. -/
inductive JVal where
  | null : JVal
  | str : String → JVal
  | num : Int → JVal
  | bool : Bool → JVal
deriving DecidableEq, Repr

/-- A JSON object, as a Python dict: insertion-ordered key/value pairs;
a well-formed dict has pairwise distinct keys. -/
abbrev Obj := List (String × JVal)

/-- The persisted task file: none when the file does not exist,
some ts when it holds the JSON array ts. -/
abbrev Store := Option (List Obj)

/-- Python d.get(k) (and d[k] when the result is some): the binding of
the first occurrence of the key. -/
def dictGet : Obj → String → Option JVal
  | [], _ => none
  | (k, v) :: rest, key => if k = key then some v else dictGet rest key

/-- Python d[k] = v: overwrite in place when k is present, else append. -/
def dictSet : Obj → String → JVal → Obj
  | [], key, v => [(key, v)]
  | (k, w) :: rest, key, v =>
    if k = key then (key, v) :: rest else (k, w) :: dictSet rest key v

/-- Python d.update(patch): assign each patch pair in insertion order. -/
def dictUpdate (d : Obj) (patch : Obj) : Obj :=
  patch.foldl (fun acc kv => dictSet acc kv.1 kv.2) d

/-- load_tasks (src/app.py lines 51-56): read the configured file and
parse it; when the file does not exist return the empty list. -/
def load_tasks (s : Store) : List Obj := s.getD []

/-- save_tasks (src/app.py lines 58-62): overwrite the file with the
serialized full collection. -/
def save_tasks (ts : List Obj) (_s : Store) : Store := some ts

/-- An HTTP response of the JSON API: status code and JSON-object body. -/
structure ApiResp where
  status : Nat
  body : Obj
deriving DecidableEq, Repr

/-- The new-task dict literal of create_task (src/app.py lines 151-158).
nowId and nowCreated stand for the two datetime.now().strftime calls,
at second resolution (formats %Y%m%d%H%M%S and %Y-%m-%d %H:%M:%S). -/
def newTask (input : Obj) (nowId nowCreated : String) : Obj :=
  [ ("id", JVal.str nowId),
    ("title", (dictGet input "title").getD JVal.null),
    ("description", (dictGet input "description").getD (JVal.str "")),
    ("status", JVal.str "pending"),
    ("priority", (dictGet input "priority").getD (JVal.str "medium")),
    ("created_at", JVal.str nowCreated) ]

/-- create_task route, POST /api/tasks (src/app.py lines 145-162):
load the collection, append the new task, save, return 201 with the
new task as body. -/
def create_task (s : Store) (input : Obj) (nowId nowCreated : String) :
    ApiResp × Store :=
  let tasks := load_tasks s
  let new_task := newTask input nowId nowCreated
  (⟨201, new_task⟩, save_tasks (tasks ++ [new_task]) s)

/-- Result of the linear scan inside update_task: the first task whose
id equals the requested one is merged with the patch (found carries the
merged task and the whole mutated collection); notFound when no task
matches; keyError when a scanned task lacks the key id, in which case
Python raises before any save. -/
inductive ScanResult where
  | found : Obj → List Obj → ScanResult
  | notFound : ScanResult
  | keyError : ScanResult
deriving DecidableEq, Repr

/-- The for-loop of update_task (src/app.py lines 170-175): linear scan
in storage order, first match wins; the match test is
task[id] == task_id with task_id a string. -/
def scanUpdate (task_id : String) (patch : Obj) : List Obj → ScanResult
  | [] => ScanResult.notFound
  | t :: rest =>
    match dictGet t "id" with
    | none => ScanResult.keyError
    | some v =>
      if v = JVal.str task_id then
        ScanResult.found (dictUpdate t patch) (dictUpdate t patch :: rest)
      else
        match scanUpdate task_id patch rest with
        | ScanResult.found u ts => ScanResult.found u (t :: ts)
        | r => r

/-- update_task route, PUT /api/tasks/(task_id) (src/app.py lines
164-176): on a match, save the mutated collection and return 200 with
the updated task; on no match return 404 with the error body and do not
save; none models the uncaught KeyError (HTTP 500, file untouched). -/
def update_task (s : Store) (task_id : String) (patch : Obj) :
    Option ApiResp × Store :=
  let tasks := load_tasks s
  match scanUpdate task_id patch tasks with
  | ScanResult.found u ts => (some ⟨200, u⟩, save_tasks ts s)
  | ScanResult.notFound =>
      (some ⟨404, [("error", JVal.str "Task not found")]⟩, s)
  | ScanResult.keyError => (none, s)

/-- get_tasks route, GET /api/tasks (src/app.py lines 140-143): returns
the loaded collection unmodified (status 200). -/
def get_tasks (s : Store) : List Obj := load_tasks s

/-- One POST /api/tasks call: the JSON input and the two timestamp
strings the call observes. -/
structure CreateCall where
  input : Obj
  nowId : String
  nowCreated : String
deriving DecidableEq, Repr

/-- A sequence of create calls threaded through the store. -/
def createMany (s : Store) (calls : List CreateCall) : Store :=
  calls.foldl (fun st c => (create_task st c.input c.nowId c.nowCreated).2) s

/-- The protected operations of the HTTP surface. -/
inductive RouteCall where
  | getTasks : RouteCall
  | home : RouteCall
  | putTask : String → Obj → RouteCall
  | postTask : Obj → String → String → RouteCall

/-- Modelled from the spec: the require_authenticated gate that the
login_required decorator (flask_login, outside this repository) applies
to GET /api/tasks, GET /, PUT /api/tasks/(id) and POST /api/tasks:
"redirects/denies when no valid session is attached" (a 302 redirect to
the login view), and only an authenticated request reaches the handler.
Authenticated requests run the handlers embedded above. -/
def dispatch (authenticated : Bool) (c : RouteCall) (s : Store) :
    Nat × Store :=
  if authenticated then
    match c with
    | RouteCall.getTasks => (200, s)
    | RouteCall.home => (200, s)
    | RouteCall.putTask task_id patch =>
      match update_task s task_id patch with
      | (some r, s2) => (r.status, s2)
      | (none, s2) => (500, s2)
    | RouteCall.postTask input nowId nowCreated =>
      ((create_task s input nowId nowCreated).1.status,
       (create_task s input nowId nowCreated).2)
  else (302, s)

/-- A stored user record (models.User): username, password hash, email. -/
structure UserRec where
  username : String
  password : String
  email : String
deriving DecidableEq, Repr

/-- User.query.filter_by(username=...).first(): first record with the
given username. -/
def firstByUsername : List UserRec → String → Option UserRec
  | [], _ => none
  | u :: rest, name =>
    if u.username = name then some u else firstByUsername rest name

/-- Caller-observable outcome of a login attempt: success carries the
logged-in user (session established, redirect home); failure carries
the flashed message (login page re-rendered, no session). -/
inductive LoginResult where
  | success : UserRec → LoginResult
  | failure : String → LoginResult
deriving DecidableEq, Repr

/-- login route, POST branch (src/app.py lines 110-122).  checkHash
stands for werkzeug's check_password_hash, applied to the stored hash
and the supplied password. -/
def loginPost (checkHash : String → String → Bool) (users : List UserRec)
    (username password : String) : LoginResult :=
  match firstByUsername users username with
  | some user =>
    if checkHash user.password password then LoginResult.success user
    else LoginResult.failure "Invalid username or password"
  | none => LoginResult.failure "Invalid username or password"

/-- Whether a login outcome established a session (login_user ran). -/
def sessionEstablished : LoginResult → Bool
  | LoginResult.success _ => true
  | LoginResult.failure _ => false

/-- A sample stored task, as created by the spec's concrete scenario. -/
def sampleTask : Obj :=
  [ ("id", JVal.str "20240101000000"),
    ("title", JVal.str "Test Task"),
    ("description", JVal.str "Test Description"),
    ("status", JVal.str "pending"),
    ("priority", JVal.str "high"),
    ("created_at", JVal.str "2024-01-01 00:00:00") ]

/-- sampleTask after merging the patch (status: completed). -/
def sampleTaskDone : Obj :=
  [ ("id", JVal.str "20240101000000"),
    ("title", JVal.str "Test Task"),
    ("description", JVal.str "Test Description"),
    ("status", JVal.str "completed"),
    ("priority", JVal.str "high"),
    ("created_at", JVal.str "2024-01-01 00:00:00") ]

/-- Two create calls landing in the same second: equal id timestamps. -/
def collidingCalls : List CreateCall :=
  [ ⟨[("title", JVal.str "a")], "20240101000000", "2024-01-01 00:00:00"⟩,
    ⟨[("title", JVal.str "b")], "20240101000000", "2024-01-01 00:00:00"⟩ ]

/-- Two create calls at distinct seconds: distinct id timestamps. -/
def distinctCalls : List CreateCall :=
  [ ⟨[("title", JVal.str "a")], "20240101000000", "2024-01-01 00:00:00"⟩,
    ⟨[("title", JVal.str "b")], "20240101000001", "2024-01-01 00:00:01"⟩ ]

/-! Helper lemmas about the dict operations and the update scan. -/

theorem dictGet_of_key_not_mem {k : String} :
    ∀ d : Obj, k ∉ d.map Prod.fst → dictGet d k = none := by
  intro d
  induction d with
  | nil => intro _; rfl
  | cons kv rest ih =>
    intro h
    obtain ⟨k0, v0⟩ := kv
    simp only [List.map_cons, List.mem_cons, not_or] at h
    simp only [dictGet, if_neg (fun hk : k0 = k => h.1 hk.symm)]
    exact ih h.2

theorem dictGet_dictSet_self (d : Obj) (k : String) (v : JVal) :
    dictGet (dictSet d k v) k = some v := by
  induction d with
  | nil => simp [dictSet, dictGet]
  | cons kv rest ih =>
    obtain ⟨k0, v0⟩ := kv
    by_cases h : k0 = k
    · simp [dictSet, dictGet, h]
    · simp [dictSet, dictGet, h, ih]

theorem dictGet_dictSet_ne (d : Obj) (k k2 : String) (v : JVal)
    (h : k2 ≠ k) : dictGet (dictSet d k v) k2 = dictGet d k2 := by
  induction d with
  | nil => simp [dictSet, dictGet, Ne.symm h]
  | cons kv rest ih =>
    obtain ⟨k0, v0⟩ := kv
    by_cases hk : k0 = k
    · subst hk
      simp [dictSet, dictGet, Ne.symm h]
    · simp [dictSet, dictGet, hk, ih]

theorem dictUpdate_cons (d : Obj) (k : String) (v : JVal) (rest : Obj) :
    dictUpdate d ((k, v) :: rest) = dictUpdate (dictSet d k v) rest := rfl

theorem dictGet_dictUpdate_of_not_mem (patch : Obj) :
    ∀ (d : Obj) (k : String), dictGet patch k = none →
      dictGet (dictUpdate d patch) k = dictGet d k := by
  induction patch with
  | nil => intro d k _; rfl
  | cons kv rest ih =>
    intro d k h
    obtain ⟨k0, v0⟩ := kv
    rw [dictUpdate_cons]
    simp only [dictGet] at h
    by_cases hk : k0 = k
    · simp [hk] at h
    · rw [if_neg hk] at h
      rw [ih _ _ h, dictGet_dictSet_ne _ _ _ _ (fun hh => hk hh.symm)]

theorem dictGet_dictUpdate_of_mem (patch : Obj) :
    ∀ (d : Obj) (k : String) (v : JVal),
      (patch.map Prod.fst).Nodup → dictGet patch k = some v →
      dictGet (dictUpdate d patch) k = some v := by
  induction patch with
  | nil => intro d k v _ h; simp [dictGet] at h
  | cons kv rest ih =>
    intro d k v hnd h
    obtain ⟨k0, v0⟩ := kv
    rw [dictUpdate_cons]
    simp only [List.map_cons, List.nodup_cons] at hnd
    simp only [dictGet] at h
    by_cases hk : k0 = k
    · subst hk
      rw [if_pos rfl] at h
      have hnone : dictGet rest k0 = none :=
        dictGet_of_key_not_mem rest (by simpa using hnd.1)
      rw [dictGet_dictUpdate_of_not_mem rest _ _ hnone, dictGet_dictSet_self]
      exact h
    · rw [if_neg hk] at h
      exact ih _ _ _ hnd.2 h

theorem scanUpdate_notFound (task_id : String) (patch : Obj) :
    ∀ tasks : List Obj,
      (∀ t ∈ tasks, (dictGet t "id").isSome ∧
        dictGet t "id" ≠ some (JVal.str task_id)) →
      scanUpdate task_id patch tasks = ScanResult.notFound := by
  intro tasks
  induction tasks with
  | nil => intro _; rfl
  | cons t rest ih =>
    intro h
    obtain ⟨hsome, hne⟩ := h t (List.mem_cons_self t rest)
    have hrest := fun u hu => h u (List.mem_cons_of_mem t hu)
    match hv : dictGet t "id" with
    | none => simp [hv] at hsome
    | some v =>
      have hvne : v ≠ JVal.str task_id := fun hh => hne (by rw [hv, hh])
      simp [scanUpdate, hv, hvne, ih hrest]

theorem scanUpdate_found (task_id : String) (patch : Obj) :
    ∀ (pre : List Obj) (t : Obj) (post : List Obj),
      (∀ u ∈ pre, (dictGet u "id").isSome ∧
        dictGet u "id" ≠ some (JVal.str task_id)) →
      dictGet t "id" = some (JVal.str task_id) →
      scanUpdate task_id patch (pre ++ t :: post) =
        ScanResult.found (dictUpdate t patch)
          (pre ++ dictUpdate t patch :: post) := by
  intro pre
  induction pre with
  | nil =>
    intro t post _ ht
    simp [scanUpdate, ht]
  | cons u rest ih =>
    intro t post h ht
    obtain ⟨hsome, hne⟩ := h u (List.mem_cons_self u rest)
    have hrest := fun w hw => h w (List.mem_cons_of_mem u hw)
    match hv : dictGet u "id" with
    | none => simp [hv] at hsome
    | some v =>
      have hvne : v ≠ JVal.str task_id := fun hh => hne (by rw [hv, hh])
      simp [scanUpdate, hv, hvne, ih t post hrest ht]

theorem scanUpdate_preserves_ids (task_id : String) (patch : Obj)
    (hid : dictGet patch "id" = none) :
    ∀ (tasks ts : List Obj) (u : Obj),
      scanUpdate task_id patch tasks = ScanResult.found u ts →
      ts.map (fun t => dictGet t "id") =
        tasks.map (fun t => dictGet t "id") := by
  intro tasks
  induction tasks with
  | nil => intro ts u h; simp [scanUpdate] at h
  | cons t rest ih =>
    intro ts u h
    match hv : dictGet t "id" with
    | none => simp [scanUpdate, hv] at h
    | some v =>
      by_cases hvt : v = JVal.str task_id
      · simp [scanUpdate, hv, hvt] at h
        rw [← h.2]
        simp only [List.map_cons]
        rw [dictGet_dictUpdate_of_not_mem patch t "id" hid]
      · simp only [scanUpdate, hv, if_neg hvt] at h
        cases hrec : scanUpdate task_id patch rest with
        | found u2 ts2 =>
          rw [hrec] at h
          simp only [ScanResult.found.injEq] at h
          rw [← h.2]
          simp only [List.map_cons]
          rw [ih ts2 u2 hrec]
        | notFound => rw [hrec] at h; simp at h
        | keyError => rw [hrec] at h; simp at h

theorem load_createMany : ∀ (calls : List CreateCall) (s : Store),
    load_tasks (createMany s calls) =
      load_tasks s ++
        calls.map (fun c => newTask c.input c.nowId c.nowCreated) := by
  intro calls
  induction calls with
  | nil => intro s; simp [createMany]
  | cons c rest ih =>
    intro s
    have step : createMany s (c :: rest) =
        createMany
          (some (load_tasks s ++ [newTask c.input c.nowId c.nowCreated]))
          rest := rfl
    rw [step, ih]
    simp [load_tasks]

/-! Claim theorems. -/

/-- C1: for every stored collection whose tasks all carry an id key and
every requested task id matching none of them, update returns 404 with
body (error: Task not found) and the store is returned unchanged: the
file is not rewritten on a failed match. -/
theorem update_task_no_match_404_store_unchanged
    (s : Store) (task_id : String) (patch : Obj)
    (h : ∀ t ∈ load_tasks s, (dictGet t "id").isSome ∧
      dictGet t "id" ≠ some (JVal.str task_id)) :
    update_task s task_id patch =
      (some ⟨404, [("error", JVal.str "Task not found")]⟩, s) := by
  simp only [update_task]
  rw [scanUpdate_notFound task_id patch (load_tasks s) h]

/-- C1 witness: a concrete one-task store and an id matching nothing. -/
theorem update_task_no_match_404_store_unchanged_witness :
    update_task (some [sampleTask]) "nope" [("status", JVal.str "completed")] =
      (some ⟨404, [("error", JVal.str "Task not found")]⟩,
       some [sampleTask]) :=
  update_task_no_match_404_store_unchanged _ _ _ (by decide)

/-- C2: when the collection contains a task with the requested id,
update merges the patch into the first matching task (patch fields
overwrite, every field not named in the patch is retained), persists
the full mutated collection, and returns the updated task with 200. -/
theorem update_task_match_merges_and_persists
    (s : Store) (pre post : List Obj) (t : Obj) (task_id : String)
    (patch : Obj)
    (hload : load_tasks s = pre ++ t :: post)
    (hpre : ∀ u ∈ pre, (dictGet u "id").isSome ∧
      dictGet u "id" ≠ some (JVal.str task_id))
    (ht : dictGet t "id" = some (JVal.str task_id))
    (hnd : (patch.map Prod.fst).Nodup) :
    update_task s task_id patch =
      (some ⟨200, dictUpdate t patch⟩,
       some (pre ++ dictUpdate t patch :: post)) ∧
    (∀ k, dictGet patch k = none →
      dictGet (dictUpdate t patch) k = dictGet t k) ∧
    (∀ k v, dictGet patch k = some v →
      dictGet (dictUpdate t patch) k = some v) := by
  refine ⟨?_, ?_, ?_⟩
  · simp only [update_task, hload]
    rw [scanUpdate_found task_id patch pre t post hpre ht]
    rfl
  · intro k hk
    exact dictGet_dictUpdate_of_not_mem patch t k hk
  · intro k v hv
    exact dictGet_dictUpdate_of_mem patch t k v hnd hv

/-- C2 witness: the spec's concrete scenario: patch (status: completed)
on an existing task flips exactly the status field, keeping title,
description, priority and created_at, and persists the collection. -/
theorem update_task_match_merges_and_persists_witness :
    update_task (some [sampleTask]) "20240101000000"
        [("status", JVal.str "completed")] =
      (some ⟨200, sampleTaskDone⟩, some [sampleTaskDone]) ∧
    dictGet sampleTaskDone "title" = dictGet sampleTask "title" ∧
    dictGet sampleTaskDone "description" = dictGet sampleTask "description" ∧
    dictGet sampleTaskDone "priority" = dictGet sampleTask "priority" ∧
    dictGet sampleTaskDone "created_at" = dictGet sampleTask "created_at" ∧
    dictGet sampleTaskDone "status" = some (JVal.str "completed") := by
  have h := update_task_match_merges_and_persists (some [sampleTask]) [] []
      sampleTask "20240101000000" [("status", JVal.str "completed")]
      rfl (by decide) (by decide) (by decide)
  rw [h.1]
  exact ⟨by decide, by decide, by decide, by decide, by decide, by decide⟩

/-- C7: saving then immediately loading returns an equal collection
(hence saving the result of a load is idempotent), and loading when the
configured file does not exist yields the empty collection, not an
error. -/
theorem save_load_roundtrip :
    (∀ (ts : List Obj) (s : Store), load_tasks (save_tasks ts s) = ts) ∧
    (∀ s : Store, load_tasks (save_tasks (load_tasks s) s) = load_tasks s) ∧
    load_tasks none = [] :=
  ⟨fun _ _ => rfl, fun _ => rfl, rfl⟩

/-- C8: an unauthenticated request to any protected operation (GET
/api/tasks, GET /, PUT /api/tasks/(id), POST /api/tasks) is rejected
with a 302 redirect and never reaches a Task Store mutation: the store
is returned unchanged. -/
theorem unauthenticated_rejected_store_unchanged
    (c : RouteCall) (s : Store) : dispatch false c s = (302, s) := rfl

/-- C3: create with a title present returns, with status code 201, a
new task whose status is pending, whose title is the supplied one,
whose description defaults to the empty string and priority to medium
when absent from the input, whose id is the second-resolution timestamp
string, and whose created_at is set; the task is appended at the end of
the loaded collection and the full collection is persisted. -/
theorem create_task_fields_append_persist
    (s : Store) (input : Obj) (nowId nowCreated : String)
    (htitle : (dictGet input "title").isSome) :
    (create_task s input nowId nowCreated).1.status = 201 ∧
    (create_task s input nowId nowCreated).1.body =
      newTask input nowId nowCreated ∧
    dictGet (newTask input nowId nowCreated) "status" =
      some (JVal.str "pending") ∧
    dictGet (newTask input nowId nowCreated) "id" = some (JVal.str nowId) ∧
    dictGet (newTask input nowId nowCreated) "created_at" =
      some (JVal.str nowCreated) ∧
    dictGet (newTask input nowId nowCreated) "title" = dictGet input "title" ∧
    (dictGet input "description" = none →
      dictGet (newTask input nowId nowCreated) "description" =
        some (JVal.str "")) ∧
    (dictGet input "priority" = none →
      dictGet (newTask input nowId nowCreated) "priority" =
        some (JVal.str "medium")) ∧
    (create_task s input nowId nowCreated).2 =
      some (load_tasks s ++ [newTask input nowId nowCreated]) := by
  obtain ⟨v, hv⟩ := Option.isSome_iff_exists.mp htitle
  refine ⟨rfl, rfl, rfl, rfl, rfl, ?_, ?_, ?_, rfl⟩
  · simp [newTask, dictGet, hv]
  · intro h
    simp [newTask, dictGet, h]
  · intro h
    simp [newTask, dictGet, h]

/-- C3 witness: the concrete create of the spec scenario. -/
theorem create_task_fields_append_persist_witness :
    (create_task none [("title", JVal.str "Test Task")] "20240101120000"
        "2024-01-01 12:00:00").1.status = 201 ∧
    (create_task none [("title", JVal.str "Test Task")] "20240101120000"
        "2024-01-01 12:00:00").2 =
      some [newTask [("title", JVal.str "Test Task")] "20240101120000"
        "2024-01-01 12:00:00"] := by
  have h := create_task_fields_append_persist none
      [("title", JVal.str "Test Task")] "20240101120000"
      "2024-01-01 12:00:00" (by decide)
  refine ⟨h.1, ?_⟩
  rw [h.2.2.2.2.2.2.2.2]
  rfl

/-- C4 counterexample: two create calls within the same second (equal
second-resolution timestamps) append two tasks with the same id, so the
ids of the listed tasks are not unique as the claim states. -/
theorem createMany_same_second_duplicate_ids :
    ((load_tasks (createMany none collidingCalls)).map
        (fun t => dictGet t "id") =
      [some (JVal.str "20240101000000"),
       some (JVal.str "20240101000000")]) ∧
    ¬ ((load_tasks (createMany none collidingCalls)).map
        (fun t => dictGet t "id")).Nodup := by
  decide

/-- C4 amended: for any sequence of create calls with titles present
and pairwise-distinct second-resolution timestamps, starting from an
empty store, list afterwards returns exactly that many tasks, each with
status pending and created_at set, and with pairwise-distinct ids. -/
theorem createMany_length_pending_unique_ids
    (calls : List CreateCall)
    (htitle : ∀ c ∈ calls, (dictGet c.input "title").isSome)
    (hdist : (calls.map CreateCall.nowId).Nodup) :
    (load_tasks (createMany none calls)).length = calls.length ∧
    (∀ t ∈ load_tasks (createMany none calls),
      dictGet t "status" = some (JVal.str "pending") ∧
      (dictGet t "created_at").isSome) ∧
    ((load_tasks (createMany none calls)).map
        (fun t => dictGet t "id")).Nodup := by
  rw [load_createMany]
  refine ⟨by simp [load_tasks], ?_, ?_⟩
  · intro t ht
    simp only [load_tasks, Option.getD_none, List.nil_append,
      List.mem_map] at ht
    obtain ⟨c, _, rfl⟩ := ht
    exact ⟨rfl, rfl⟩
  · have hinj : Function.Injective (fun x : String => some (JVal.str x)) := by
      intro a b h
      simpa using h
    have h2 := List.Nodup.map hinj hdist
    rw [List.map_map] at h2
    simp only [load_tasks, Option.getD_none, List.nil_append, List.map_map]
    exact h2

/-- C4 witness: two creates at distinct seconds yield two tasks with
distinct ids. -/
theorem createMany_length_pending_unique_ids_witness :
    (load_tasks (createMany none distinctCalls)).length = 2 ∧
    ((load_tasks (createMany none distinctCalls)).map
        (fun t => dictGet t "id")).Nodup := by
  have h := createMany_length_pending_unique_ids distinctCalls
      (by decide) (by decide)
  exact ⟨h.1, h.2.2⟩

/-- C5 counterexample: a patch that itself contains the key id rewrites
the stored task's id, so ids are not immutable under update as the
claim states: update with patch (id: hacked) persists id = hacked. -/
theorem update_task_can_change_id :
    (update_task (some [[("id", JVal.str "20240101000000")]])
        "20240101000000" [("id", JVal.str "hacked")]).2 =
      some [[("id", JVal.str "hacked")]] := by
  decide

/-- C5 amended: provided the patch does not contain the key id, every
update call preserves the id field of every task in the persisted
collection (in particular on the no-match and error paths, where the
file is untouched). -/
theorem update_task_preserves_ids
    (s : Store) (task_id : String) (patch : Obj)
    (hid : dictGet patch "id" = none) :
    (load_tasks (update_task s task_id patch).2).map
        (fun t => dictGet t "id") =
      (load_tasks s).map (fun t => dictGet t "id") := by
  simp only [update_task]
  cases hscan : scanUpdate task_id patch (load_tasks s) with
  | found u ts =>
    simp only [load_tasks, save_tasks, Option.getD_some]
    exact scanUpdate_preserves_ids task_id patch hid (load_tasks s) ts u hscan
  | notFound => rfl
  | keyError => rfl

/-- C5 witness: a status-only patch leaves the stored id in place. -/
theorem update_task_preserves_ids_witness :
    (load_tasks (update_task (some [sampleTask]) "20240101000000"
        [("status", JVal.str "completed")]).2).map
        (fun t => dictGet t "id") =
      [some (JVal.str "20240101000000")] := by
  have h := update_task_preserves_ids (some [sampleTask]) "20240101000000"
      [("status", JVal.str "completed")] (by decide)
  rw [h]
  decide

/-- C6 counterexample: create with an input lacking a title does not
fail as a client error: it returns 201 and persists a task whose title
is null. -/
theorem create_task_without_title_succeeds :
    (create_task none [] "20240101120000" "2024-01-01 12:00:00").1.status =
      201 ∧
    dictGet (create_task none [] "20240101120000"
        "2024-01-01 12:00:00").1.body "title" = some JVal.null ∧
    (create_task none [] "20240101120000" "2024-01-01 12:00:00").2 =
      some [(create_task none [] "20240101120000"
        "2024-01-01 12:00:00").1.body] := by
  decide

/-- C6 amended: create performs no title validation: for every input
lacking a title, a task whose title is null is still created, appended
to the persisted collection, and returned with status 201. -/
theorem create_task_no_title_validation
    (s : Store) (input : Obj) (nowId nowCreated : String)
    (h : dictGet input "title" = none) :
    (create_task s input nowId nowCreated).1.status = 201 ∧
    dictGet (create_task s input nowId nowCreated).1.body "title" =
      some JVal.null ∧
    (create_task s input nowId nowCreated).2 =
      some (load_tasks s ++
        [(create_task s input nowId nowCreated).1.body]) := by
  refine ⟨rfl, ?_, rfl⟩
  simp [create_task, newTask, dictGet, h]

/-- C6 witness: a concrete title-less input on a one-task store. -/
theorem create_task_no_title_validation_witness :
    (create_task (some [sampleTask]) [("priority", JVal.str "low")]
        "20240102000000" "2024-01-02 00:00:00").1.status = 201 ∧
    dictGet (create_task (some [sampleTask]) [("priority", JVal.str "low")]
        "20240102000000" "2024-01-02 00:00:00").1.body "title" =
      some JVal.null := by
  have h := create_task_no_title_validation (some [sampleTask])
      [("priority", JVal.str "low")] "20240102000000" "2024-01-02 00:00:00"
      (by decide)
  exact ⟨h.1, h.2.1⟩

/-- C9: login fails identically for an unknown username and for a known
username with a wrong password: both attempts produce the same generic
failure message (Invalid username or password) and neither establishes
a session, leaking no information about which field was wrong. -/
theorem login_failure_indistinguishable
    (checkHash : String → String → Bool) (users : List UserRec)
    (u1 p1 u2 p2 : String) (ur : UserRec)
    (h1 : firstByUsername users u1 = none)
    (h2 : firstByUsername users u2 = some ur)
    (h3 : checkHash ur.password p2 = false) :
    loginPost checkHash users u1 p1 =
      LoginResult.failure "Invalid username or password" ∧
    loginPost checkHash users u2 p2 =
      LoginResult.failure "Invalid username or password" ∧
    loginPost checkHash users u1 p1 = loginPost checkHash users u2 p2 ∧
    sessionEstablished (loginPost checkHash users u1 p1) = false ∧
    sessionEstablished (loginPost checkHash users u2 p2) = false := by
  have e1 : loginPost checkHash users u1 p1 =
      LoginResult.failure "Invalid username or password" := by
    simp [loginPost, h1]
  have e2 : loginPost checkHash users u2 p2 =
      LoginResult.failure "Invalid username or password" := by
    simp [loginPost, h2, h3]
  exact ⟨e1, e2, by rw [e1, e2], by rw [e1]; rfl, by rw [e2]; rfl⟩

/-- C9 witness: one stored user; an unknown username and a wrong
password are observationally identical. -/
theorem login_failure_indistinguishable_witness :
    loginPost (fun a b => a == b) [⟨"testuser", "hashed", "t@e.com"⟩]
        "ghost" "pw" =
      loginPost (fun a b => a == b) [⟨"testuser", "hashed", "t@e.com"⟩]
        "testuser" "wrong" ∧
    sessionEstablished (loginPost (fun a b => a == b)
        [⟨"testuser", "hashed", "t@e.com"⟩] "ghost" "pw") = false := by
  have h := login_failure_indistinguishable (fun a b => a == b)
      [⟨"testuser", "hashed", "t@e.com"⟩] "ghost" "pw" "testuser" "wrong"
      ⟨"testuser", "hashed", "t@e.com"⟩ (by decide) (by decide) (by decide)
  exact ⟨h.2.2.1, h.2.2.2.1⟩

/-- C10: update performs no validation of the patch: when a task
matches, every key-value pair of the patch appears verbatim in the
persisted task — including keys outside the Task schema, which are
added to the stored task, and arbitrary values for status, priority and
created_at — and the mutated collection is persisted. -/
theorem update_task_patch_verbatim
    (s : Store) (pre post : List Obj) (t : Obj) (task_id : String)
    (patch : Obj)
    (hload : load_tasks s = pre ++ t :: post)
    (hpre : ∀ u ∈ pre, (dictGet u "id").isSome ∧
      dictGet u "id" ≠ some (JVal.str task_id))
    (ht : dictGet t "id" = some (JVal.str task_id))
    (hnd : (patch.map Prod.fst).Nodup) :
    (update_task s task_id patch).2 =
      some (pre ++ dictUpdate t patch :: post) ∧
    ∀ k v, dictGet patch k = some v →
      dictGet (dictUpdate t patch) k = some v := by
  refine ⟨?_, ?_⟩
  · simp only [update_task, hload]
    rw [scanUpdate_found task_id patch pre t post hpre ht]
    rfl
  · intro k v hv
    exact dictGet_dictUpdate_of_mem patch t k v hnd hv

/-- C10 witness: a patch with a key outside the Task schema and a
numeric status lands verbatim in the persisted task. -/
theorem update_task_patch_verbatim_witness :
    (update_task (some [sampleTask]) "20240101000000"
        [("nonsense", JVal.num 42), ("status", JVal.num 7)]).2 =
      some [dictUpdate sampleTask
        [("nonsense", JVal.num 42), ("status", JVal.num 7)]] ∧
    dictGet (dictUpdate sampleTask
        [("nonsense", JVal.num 42), ("status", JVal.num 7)]) "nonsense" =
      some (JVal.num 42) ∧
    dictGet (dictUpdate sampleTask
        [("nonsense", JVal.num 42), ("status", JVal.num 7)]) "status" =
      some (JVal.num 7) := by
  have h := update_task_patch_verbatim (some [sampleTask]) [] [] sampleTask
      "20240101000000" [("nonsense", JVal.num 42), ("status", JVal.num 7)]
      rfl (by decide) (by decide) (by decide)
  exact ⟨h.1, h.2 "nonsense" (JVal.num 42) (by decide),
    h.2 "status" (JVal.num 7) (by decide)⟩

end TaskApp
